import Mathlib

/-!
Verification of `registration/backends/manual/__init__.py` (the `ManualActivation`
registration backend) against its natural-language specification.

The module is sequential orchestration code.  We embed it shallowly: each method
becomes a pure Lean function; the external collaborators (the Account Directory
manager `RegistrationProfile.objects`, the site machinery `Site` / `RequestSite`,
and the settings object) are parameters, and every observable outgoing call
(account creation, admin notification, signal dispatch) is recorded in an event
trace returned alongside the result.  Python exceptions are modelled with
`Except`; the falsy result of `activate_user` is modelled with `Option`.
-/

namespace ManualActivation

/-- A user record, owned by the external Account Directory; this component only
passes its identity around, so an opaque id suffices. -/
structure User where
  id : Nat
deriving DecidableEq, Repr

/-- A site-like value: either a `Site` returned by `Site.objects.get_current()`
or a `RequestSite` built from the request (the fallback on line 48 of the
source). -/
inductive SiteLike where
  | site (id : Nat)
  | requestSite (request : Nat)
deriving DecidableEq, Repr

/-- The exceptions that can cross this component's boundary: a `KeyError` from
the keyword-argument lookups on line 44, a `NameError` from an unresolvable
module-level name, and an arbitrary opaque error raised by the Account
Directory (e.g. a duplicate-username error), identified by a code. -/
inductive Exc where
  | keyError (key : String)
  | nameError (nm : String)
  | directoryError (code : Nat)
deriving DecidableEq, Repr

/-- Observable outgoing calls made by the backend, in program order. -/
inductive Event where
  | createInactiveUser (username email password : String) (site : SiteLike)
      (sendEmail : Bool)
  | adminNotification (u : User)
  | userRegistered (senderCls : String) (u : User) (request : Nat)
  | activateUserCall (key : String)
  | userActivated (senderCls : String) (u : User) (request : Nat)
deriving DecidableEq, Repr

/-- The external collaborators the backend calls into:
`Site._meta.installed`, `Site.objects.get_current()`,
`RegistrationProfile.objects.create_inactive_user` (which may raise, hence
`Except`), and `RegistrationProfile.objects.activate_user` (which returns the
user or a falsy value, hence `Option`). -/
structure Collaborators where
  siteInstalled : Bool
  getCurrent : SiteLike
  createInactiveUser : String → String → String → SiteLike → Bool → Except Exc User
  activateUser : String → Option User

/-- The sender passed to every signal dispatch: `self.__class__`, i.e. the
`ManualActivation` class itself, modelled by its name. -/
def senderClass : String := "ManualActivation"

/-- Lines 45-48 of the source: `Site.objects.get_current()` when
`Site._meta.installed`, else `RequestSite(request)`. -/
def resolveSite (C : Collaborators) (request : Nat) : SiteLike :=
  if C.siteInstalled then C.getCurrent else SiteLike.requestSite request

/-- Modelled from the spec: `send_new_user_notification` is called on line 53
of the source but its definition is missing from the sources — the call site
carries the comment "you would write this function", i.e. it is repository
code left for the integrator to supply in this module.  Per the spec it is
"an unspecified callable taking the new User and performing out-of-band
delivery to an administrator"; its return value is unused, so it is modelled
as the out-of-band admin-notification event it emits for the new user. -/
def send_new_user_notification (new_user : User) : Event :=
  Event.adminNotification new_user

/-- `ManualActivation.register(self, request, **kwargs)`, lines 21-57.
`kwargs` is the keyword-argument dictionary, a partial map from names to
string values.  Line 44 evaluates `kwargs['username']`, `kwargs['email']`,
`kwargs['password1']` left to right, so the first missing key raises
`KeyError` before anything else runs.  Then the site is resolved, the Account
Directory is asked to create an inactive user with `send_email=False` (an
exception there aborts the remainder and propagates), the admin is notified,
the `user_registered` signal is sent with the backend class as sender, and the
new user is returned. -/
def register (C : Collaborators) (request : Nat) (kwargs : String → Option String) :
    Except Exc User × List Event :=
  match kwargs "username" with
  | none => (Except.error (Exc.keyError "username"), [])
  | some username =>
  match kwargs "email" with
  | none => (Except.error (Exc.keyError "email"), [])
  | some email =>
  match kwargs "password1" with
  | none => (Except.error (Exc.keyError "password1"), [])
  | some password =>
    let site := resolveSite C request
    match C.createInactiveUser username email password site false with
    | Except.error e =>
        (Except.error e, [Event.createInactiveUser username email password site false])
    | Except.ok new_user =>
        (Except.ok new_user,
          [Event.createInactiveUser username email password site false,
           send_new_user_notification new_user,
           Event.userRegistered senderClass new_user request])

/-- `ManualActivation.activate(self, request, activation_key)`, lines 59-75:
delegate to `RegistrationProfile.objects.activate_user(activation_key)`; if the
result is truthy, send the `user_activated` signal with the backend class as
sender; return the result unchanged. -/
def activate (C : Collaborators) (request : Nat) (activation_key : String) :
    Option User × List Event :=
  match C.activateUser activation_key with
  | some activated =>
      (some activated,
        [Event.activateUserCall activation_key,
         Event.userActivated senderClass activated request])
  | none => (none, [Event.activateUserCall activation_key])

/-- `ManualActivation.registration_allowed(self, request)`, line 90:
`getattr(settings, 'VENDOR_REGISTRATION_OPEN', True)`.  The settings object is
modelled as a partial map from option names to boolean values; the function is
pure (no trace: the source performs a read only). -/
def registration_allowed (s : String → Option Bool) (request : Nat) : Bool :=
  (s "VENDOR_REGISTRATION_OPEN").getD true

/-- The names bound in the module's global namespace by its top-level
statements: the six imported names (lines 1-6 of the source) and the class
defined by the module.  `RegistrationAndProfileForm` is not among them, and it
is not a Python builtin either. -/
def moduleGlobals : List String :=
  ["settings", "RequestSite", "Site", "signals", "RegistrationForm",
   "RegistrationProfile", "ManualActivation"]

/-- `ManualActivation.get_form_class(self, request)`, lines 92-97: the body is
`return RegistrationAndProfileForm`, a bare name resolved at call time in the
module's global namespace (then builtins).  The lookup is modelled directly:
a bound name would be returned as the form-class reference, an unbound one
raises `NameError`. -/
def get_form_class (request : Nat) : Except Exc String :=
  if moduleGlobals.contains "RegistrationAndProfileForm" then
    Except.ok "RegistrationAndProfileForm"
  else
    Except.error (Exc.nameError "RegistrationAndProfileForm")

/-- `ManualActivation.post_registration_redirect(self, request, user)`,
line 105: `return ('registration_complete', (), {})` — a route name, an empty
positional-argument tuple and an empty keyword-argument dictionary. -/
def post_registration_redirect (request : Nat) (user : User) :
    String × List String × List (String × String) :=
  ("registration_complete", [], [])

/-- `ManualActivation.post_activation_redirect(self, request, user)`,
line 113: `return ('registration_actication_complete', (), {})` (the route
name's typo is the source's own). -/
def post_activation_redirect (request : Nat) (user : User) :
    String × List String × List (String × String) :=
  ("registration_actication_complete", [], [])

/-- Trace predicate: is this event an admin notification? -/
def isAdminNotification : Event → Bool
  | Event.adminNotification _ => true
  | _ => false

/-- Trace predicate: is this event a `user_registered` signal dispatch? -/
def isUserRegistered : Event → Bool
  | Event.userRegistered _ _ _ => true
  | _ => false

/-- Trace predicate: is this event a `user_activated` signal dispatch? -/
def isUserActivated : Event → Bool
  | Event.userActivated _ _ _ => true
  | _ => false

/-! ### Concrete inputs used by the witnesses -/

/-- A keyword-argument map binding the three keys `register` reads. -/
def kwargsFull : String → Option String :=
  fun k =>
    if k = "username" then some "alice"
    else if k = "email" then some "alice@example.com"
    else if k = "password1" then some "swordfish"
    else none

/-- A keyword-argument map that binds `username` and `password` (not
`password1`) and omits `email`. -/
def kwargsMissingEmail : String → Option String :=
  fun k =>
    if k = "username" then some "alice"
    else if k = "password" then some "swordfish"
    else none

/-- Collaborators whose Account Directory successfully creates user 7 and
activates key "good" to user 3; multi-site support installed. -/
def okCollab : Collaborators where
  siteInstalled := true
  getCurrent := SiteLike.site 1
  createInactiveUser := fun _ _ _ _ _ => Except.ok ⟨7⟩
  activateUser := fun k => if k = "good" then some ⟨3⟩ else none

/-- Collaborators whose Account Directory raises error 11 (say, a duplicate
username) on creation; multi-site support not installed. -/
def dupCollab : Collaborators where
  siteInstalled := false
  getCurrent := SiteLike.site 1
  createInactiveUser := fun _ _ _ _ _ => Except.error (Exc.directoryError 11)
  activateUser := fun _ => none

/-- A settings map matching the claimed option name `REGISTRATION_OPEN` set to
false, with every other option (in particular `VENDOR_REGISTRATION_OPEN`)
absent. -/
def claimSettings : String → Option Bool :=
  fun k => if k = "REGISTRATION_OPEN" then some false else none

/-! ### Claims -/

/-- Claim C1: for every request context and registration input with non-empty
username, email and password, when the Account Directory's
`create_inactive_user` succeeds, `register` sends exactly one admin
notification, publishes exactly one `user_registered` event carrying the
created user, the request and the backend class as sender, and returns the
created user. -/
theorem register_success_contract (C : Collaborators) (request : Nat)
    (kwargs : String → Option String) (username email password : String) (u : User)
    (hne : username ≠ "" ∧ email ≠ "" ∧ password ≠ "")
    (hu : kwargs "username" = some username)
    (he : kwargs "email" = some email)
    (hp : kwargs "password1" = some password)
    (hc : C.createInactiveUser username email password (resolveSite C request) false =
      Except.ok u) :
    (register C request kwargs).1 = Except.ok u ∧
    (register C request kwargs).2.filter isAdminNotification =
      [Event.adminNotification u] ∧
    (register C request kwargs).2.filter isUserRegistered =
      [Event.userRegistered senderClass u request] := by
  simp [register, hu, he, hp, hc, send_new_user_notification,
    isAdminNotification, isUserRegistered, List.filter]

/-- Witness for C1 at a concrete successful registration. -/
theorem register_success_contract_witness :
    (register okCollab 0 kwargsFull).1 = Except.ok ⟨7⟩ ∧
    (register okCollab 0 kwargsFull).2.filter isAdminNotification =
      [Event.adminNotification ⟨7⟩] ∧
    (register okCollab 0 kwargsFull).2.filter isUserRegistered =
      [Event.userRegistered senderClass ⟨7⟩ 0] :=
  register_success_contract okCollab 0 kwargsFull "alice" "alice@example.com"
    "swordfish" ⟨7⟩ ⟨by decide, by decide, by decide⟩ rfl rfl rfl rfl

/-- Claim C2 counterexample: the claim names the option `REGISTRATION_OPEN`,
but the source reads `VENDOR_REGISTRATION_OPEN`; with `REGISTRATION_OPEN` set
to false (and the vendor option absent) `registration_allowed` returns true,
refuting the claim as stated. -/
theorem registration_allowed_claim_counterexample :
    ¬ (∀ s : String → Option Bool,
        (s "REGISTRATION_OPEN" = none → registration_allowed s 0 = true) ∧
        (s "REGISTRATION_OPEN" = some true → registration_allowed s 0 = true) ∧
        (s "REGISTRATION_OPEN" = some false → registration_allowed s 0 = false)) := by
  intro h
  exact absurd ((h claimSettings).2.2 (by decide)) (by decide)

/-- Claim C2 (amended): for every configuration state,
`registration_allowed` returns true when `VENDOR_REGISTRATION_OPEN` is absent,
true when it is set to true, and false when it is set to false; it is a pure
read of the configuration. -/
theorem registration_allowed_spec (s : String → Option Bool) (request : Nat) :
    (s "VENDOR_REGISTRATION_OPEN" = none → registration_allowed s request = true) ∧
    (s "VENDOR_REGISTRATION_OPEN" = some true → registration_allowed s request = true) ∧
    (s "VENDOR_REGISTRATION_OPEN" = some false → registration_allowed s request = false) := by
  refine ⟨fun h => ?_, fun h => ?_, fun h => ?_⟩ <;> simp [registration_allowed, h]

/-- Witness for the amended C2 at concrete settings maps. -/
theorem registration_allowed_spec_witness :
    registration_allowed (fun _ => none) 0 = true ∧
    registration_allowed (fun _ => some false) 0 = false :=
  ⟨(registration_allowed_spec (fun _ => none) 0).1 rfl,
   (registration_allowed_spec (fun _ => some false) 0).2.2 rfl⟩

/-- Claim C3 (code bug evidence): `get_form_class` does not return a form
reference — the name `RegistrationAndProfileForm` is bound nowhere in the
module (only `RegistrationForm` is imported), so the lookup raises
`NameError` on every call. -/
theorem get_form_class_name_error (request : Nat) :
    get_form_class request = Except.error (Exc.nameError "RegistrationAndProfileForm") :=
  rfl

/-- Claim C4: `activate` publishes exactly one `user_activated` event — with
the activated user, the request and the backend class as sender — when
`activate_user` returns a truthy result, and publishes none when the result is
falsy. -/
theorem activate_event_iff (C : Collaborators) (request : Nat) (key : String) :
    (∀ u : User, C.activateUser key = some u →
      (activate C request key).2.filter isUserActivated =
        [Event.userActivated senderClass u request]) ∧
    (C.activateUser key = none →
      (activate C request key).2.filter isUserActivated = []) := by
  constructor
  · intro u h
    simp [activate, h, isUserActivated, List.filter]
  · intro h
    simp [activate, h, isUserActivated, List.filter]

/-- Witness for C4: a truthy activation publishes the event, a falsy one does
not. -/
theorem activate_event_iff_witness :
    (activate okCollab 0 "good").2.filter isUserActivated =
      [Event.userActivated senderClass ⟨3⟩ 0] ∧
    (activate okCollab 0 "bad").2.filter isUserActivated = [] :=
  ⟨(activate_event_iff okCollab 0 "good").1 ⟨3⟩ rfl,
   (activate_event_iff okCollab 0 "bad").2 rfl⟩

/-- Claim C5: `activate` returns exactly what the Account Directory's
`activate_user` returned — the user on success, the falsy sentinel on
failure — with no exception translation and no error of its own (its type
admits no exception). -/
theorem activate_returns_directory_result (C : Collaborators) (request : Nat)
    (key : String) :
    (activate C request key).1 = C.activateUser key := by
  cases h : C.activateUser key <;> simp [activate, h]

/-- Claim C6: if the Account Directory's `create_inactive_user` raises, then
`register` propagates that very error unchanged and performs neither the admin
notification nor the `user_registered` publish. -/
theorem register_propagates_error (C : Collaborators) (request : Nat)
    (kwargs : String → Option String) (username email password : String) (e : Exc)
    (hu : kwargs "username" = some username)
    (he : kwargs "email" = some email)
    (hp : kwargs "password1" = some password)
    (hc : C.createInactiveUser username email password (resolveSite C request) false =
      Except.error e) :
    (register C request kwargs).1 = Except.error e ∧
    (register C request kwargs).2.filter isAdminNotification = [] ∧
    (register C request kwargs).2.filter isUserRegistered = [] := by
  simp [register, hu, he, hp, hc, isAdminNotification, isUserRegistered, List.filter]

/-- Witness for C6 at a concrete failing Account Directory. -/
theorem register_propagates_error_witness :
    (register dupCollab 0 kwargsFull).1 = Except.error (Exc.directoryError 11) ∧
    (register dupCollab 0 kwargsFull).2.filter isAdminNotification = [] ∧
    (register dupCollab 0 kwargsFull).2.filter isUserRegistered = [] :=
  register_propagates_error dupCollab 0 kwargsFull "alice" "alice@example.com"
    "swordfish" (Exc.directoryError 11) rfl rfl rfl rfl

/-- Claim C7: whenever `register` reaches account creation, it delegates to
`create_inactive_user` with the resolved site and `send_email=False`; moreover
every account-creation call it ever makes has `send_email=False`, so this path
never sends an activation email to the end user. -/
theorem register_delegates_with_email_suppressed (C : Collaborators) (request : Nat)
    (kwargs : String → Option String) (username email password : String)
    (hu : kwargs "username" = some username)
    (he : kwargs "email" = some email)
    (hp : kwargs "password1" = some password) :
    Event.createInactiveUser username email password (resolveSite C request) false
      ∈ (register C request kwargs).2 ∧
    (∀ un em pw st se,
      Event.createInactiveUser un em pw st se ∈ (register C request kwargs).2 →
        se = false) := by
  constructor
  · cases hc : C.createInactiveUser username email password (resolveSite C request) false <;>
      simp [register, hu, he, hp, hc]
  · intro un em pw st se hmem
    cases hc : C.createInactiveUser username email password (resolveSite C request) false <;>
      simp [register, hu, he, hp, hc, send_new_user_notification] at hmem <;>
      exact hmem.2.2.2.2

/-- Witness for C7 at a concrete call. -/
theorem register_delegates_with_email_suppressed_witness :
    Event.createInactiveUser "alice" "alice@example.com" "swordfish"
      (resolveSite okCollab 0) false ∈ (register okCollab 0 kwargsFull).2 :=
  (register_delegates_with_email_suppressed okCollab 0 kwargsFull "alice"
    "alice@example.com" "swordfish" rfl rfl rfl).1

/-- Claim C8: the site handed to the Account Directory is
`Site.objects.get_current()` when multi-site support is installed and
`RequestSite(request)` otherwise. -/
theorem register_site_resolution (C : Collaborators) (request : Nat)
    (kwargs : String → Option String) (username email password : String)
    (hu : kwargs "username" = some username)
    (he : kwargs "email" = some email)
    (hp : kwargs "password1" = some password) :
    (C.siteInstalled = true →
      Event.createInactiveUser username email password C.getCurrent false
        ∈ (register C request kwargs).2) ∧
    (C.siteInstalled = false →
      Event.createInactiveUser username email password (SiteLike.requestSite request)
          false ∈ (register C request kwargs).2) := by
  have hbase :=
    (register_delegates_with_email_suppressed C request kwargs username email
      password hu he hp).1
  constructor
  · intro hins
    simpa [resolveSite, hins] using hbase
  · intro hins
    simpa [resolveSite, hins] using hbase

/-- Witness for C8: both branches of the site resolution at concrete inputs. -/
theorem register_site_resolution_witness :
    Event.createInactiveUser "alice" "alice@example.com" "swordfish"
      (SiteLike.site 1) false ∈ (register okCollab 0 kwargsFull).2 ∧
    Event.createInactiveUser "alice" "alice@example.com" "swordfish"
      (SiteLike.requestSite 0) false ∈ (register dupCollab 0 kwargsFull).2 :=
  ⟨(register_site_resolution okCollab 0 kwargsFull "alice" "alice@example.com"
      "swordfish" rfl rfl rfl).1 rfl,
   (register_site_resolution dupCollab 0 kwargsFull "alice" "alice@example.com"
      "swordfish" rfl rfl rfl).2 rfl⟩

/-- Claim C9: the two post-action redirect methods return a fixed route name
with empty positional and keyword argument sets, identical for every request
and user. -/
theorem redirects_fixed (request request2 : Nat) (user user2 : User) :
    post_registration_redirect request user =
      ("registration_complete", ([] : List String), ([] : List (String × String))) ∧
    post_activation_redirect request user =
      ("registration_actication_complete", ([] : List String),
        ([] : List (String × String))) ∧
    post_registration_redirect request user = post_registration_redirect request2 user2 ∧
    post_activation_redirect request user = post_activation_redirect request2 user2 :=
  ⟨rfl, rfl, rfl, rfl⟩

/-- Claim C10: `register` reads exactly the keyword arguments `username`,
`email` and `password1` (so two kwargs maps agreeing on those three keys are
indistinguishable to it, whatever a `password` key holds), and the first of
those keys that is missing raises its `KeyError` with an empty trace — before
any collaborator is contacted. -/
theorem register_kwargs_contract (C : Collaborators) (request : Nat)
    (kwargs kwargs2 : String → Option String) :
    (kwargs "username" = kwargs2 "username" → kwargs "email" = kwargs2 "email" →
      kwargs "password1" = kwargs2 "password1" →
      register C request kwargs = register C request kwargs2) ∧
    (kwargs "username" = none →
      register C request kwargs = (Except.error (Exc.keyError "username"), [])) ∧
    ((∃ v, kwargs "username" = some v) → kwargs "email" = none →
      register C request kwargs = (Except.error (Exc.keyError "email"), [])) ∧
    ((∃ v, kwargs "username" = some v) → (∃ v, kwargs "email" = some v) →
      kwargs "password1" = none →
      register C request kwargs = (Except.error (Exc.keyError "password1"), [])) := by
  refine ⟨fun h1 h2 h3 => ?_, fun h => ?_, fun h1 h2 => ?_, fun h1 h2 h3 => ?_⟩
  · unfold register
    rw [h1, h2, h3]
  · simp [register, h]
  · obtain ⟨v, hv⟩ := h1
    simp [register, hv, h2]
  · obtain ⟨v, hv⟩ := h1
    obtain ⟨w, hw⟩ := h2
    simp [register, hv, hw, h3]

/-- Witness for C10: with `username` and `password` (not `password1`) bound
and `email` absent, `register` raises `KeyError('email')` and contacts no
collaborator. -/
theorem register_kwargs_contract_witness :
    register okCollab 0 kwargsMissingEmail =
      (Except.error (Exc.keyError "email"), []) :=
  (register_kwargs_contract okCollab 0 kwargsMissingEmail kwargsMissingEmail).2.2.1
    ⟨"alice", rfl⟩ rfl

end ManualActivation
